import Mathlib

set_option linter.unusedVariables false

namespace SvenApi

/-! Shallow embedding of the sven-api desk-control service (src/main.rs):
the data model, the MQTT bus mirror, the presence probe, the night-mode
policy loop cycle, and the HTTP command handler. External library effects
(JSON / UTF-8 decoding of inbound payloads, the result of an MQTT publish,
the exit of the ping process) are inputs to the embedded functions. -/

/-- Topic for outbound desk commands (`SVEN_COMMAND_TOPIC` in the source). -/
def SVEN_COMMAND_TOPIC : String := "sven/command"

/-- Topic for inbound device state (`SVEN_STATE_TOPIC` in the source). -/
def SVEN_STATE_TOPIC : String := "sven/state"

/-- Topic for inbound device status (`SVEN_STATUS_TOPIC` in the source). -/
def SVEN_STATUS_TOPIC : String := "sven/status"

/-- The six command variants of `enum SvenCommand`. -/
inductive SvenCommand where
  | UpDuration
  | DownDuration
  | UpRelative
  | DownRelative
  | AbsoluteHeight
  | Position
deriving DecidableEq, Repr

/-- Serde unit-variant name used when serializing a `SvenCommand` to JSON. -/
def SvenCommand.serdeName : SvenCommand → String
  | .UpDuration => "UpDuration"
  | .DownDuration => "DownDuration"
  | .UpRelative => "UpRelative"
  | .DownRelative => "DownRelative"
  | .AbsoluteHeight => "AbsoluteHeight"
  | .Position => "Position"

/-- `struct DeskCommand { command: SvenCommand, value: u32 }`. -/
structure DeskCommand where
  command : SvenCommand
  value : Nat
deriving DecidableEq, Repr

/-- JSON produced by `serde_json::to_string` for a `DeskCommand`:
field order as declared, unit enum variants as bare strings. -/
def DeskCommand.toJson (c : DeskCommand) : String :=
  "\x7b\"command\":\"" ++ c.command.serdeName ++ "\",\"value\":" ++
    toString c.value ++ "\x7d"

/-- The position enum of `enum SvenPosition`. -/
inductive SvenPosition where
  | Bottom
  | Top
  | Armrest
  | AboveArmrest
  | Standing
  | Custom
deriving DecidableEq, Repr

/-- `struct SvenState { height_mm: u32, position: SvenPosition }`. -/
structure SvenState where
  height_mm : Nat
  position : SvenPosition
deriving DecidableEq, Repr

/-- MQTT quality-of-service levels used by the publish calls. -/
inductive QoS where
  | AtMostOnce
  | AtLeastOnce
  | ExactlyOnce
deriving DecidableEq, Repr

/-- One outbound MQTT publish request: the arguments that the source passes
to `client.publish(topic, qos, retain, payload)`. -/
structure PublishReq where
  topic : String
  qos : QoS
  retain : Bool
  payload : String
deriving DecidableEq, Repr

/-- The mutable fields of `AppState` that hold mirrored device data
(`sven_state` and `sven_status`; the MQTT client handle carries no
mirrored data and is omitted). -/
structure AppState where
  sven_state : SvenState
  sven_status : String
deriving DecidableEq, Repr

/-- The `AppState` constructed in `main`: height 0, position `Custom`,
status `"offline"`. -/
def initialAppState : AppState :=
  { sven_state := { height_mm := 0, position := SvenPosition.Custom }
    sven_status := "offline" }

/-- Outcome of the MQTT publish performed by `handle_command`; the source
discards it with `let _ = ...`. -/
inductive PublishResult where
  | ok
  | err (e : String)
deriving DecidableEq, Repr

/-- An HTTP response: status code and JSON body text. -/
structure HttpResponse where
  status : Nat
  body : String
deriving DecidableEq, Repr

/-- `handle_command`: serializes the decoded `DeskCommand` as JSON,
publishes it to the command topic at QoS `AtLeastOnce` with retain false,
discards the publish result, and returns 200 with a fixed success body. -/
def handle_command (command : DeskCommand) (publishResult : PublishResult) :
    PublishReq × HttpResponse :=
  ({ topic := SVEN_COMMAND_TOPIC
     qos := QoS.AtLeastOnce
     retain := false
     payload := command.toJson },
   { status := 200
     body := "\x7b\"status\":\"Command sent successfully\"\x7d" })

/-- `set_to_night_mode`: the single publish it performs — the JSON of
`DeskCommand { command: AbsoluteHeight, value: 850 }` onto the command
topic at QoS `AtLeastOnce`, retain false, result discarded. -/
def set_to_night_mode : PublishReq :=
  { topic := SVEN_COMMAND_TOPIC
    qos := QoS.AtLeastOnce
    retain := false
    payload := DeskCommand.toJson { command := SvenCommand.AbsoluteHeight, value := 850 } }

/-- `static HOST_IP` — the fixed presence-probe endpoint. -/
def HOST_IP : String := "192.168.1.132"

/-- The process invocation made by `host_is_active`:
`ping -c 1 HOST_IP` (a single echo request). -/
def pingInvocation : String × List String := ("ping", ["-c", "1", HOST_IP])

/-- Outcome of running the ping process: either spawning/awaiting it
failed (`Err(e)` in the source), or it completed with an exit status whose
`success()` value is recorded. -/
inductive PingOutcome where
  | spawnErr (e : String)
  | output (statusSuccess : Bool)
deriving DecidableEq, Repr

/-- `host_is_active` as a function of the ping outcome: `Ok(output)`
yields `output.status.success()`; `Err(_)` is logged and yields false. -/
def host_is_active : PingOutcome → Bool
  | .spawnErr _ => false
  | .output s => s

/-- `static NIGHT_TIME_THRESHOLD_MM: u32 = 845`. -/
def NIGHT_TIME_THRESHOLD_MM : Nat := 845

/-- `static NIGHT_TIME_START: u32 = 23`. -/
def NIGHT_TIME_START : Nat := 23

/-- `static NIGHT_TIME_END: u32 = 6`. -/
def NIGHT_TIME_END : Nat := 6

/-- A local wall-clock time of day, as read from `chrono::Local::now()`
(sub-second part omitted: the target built with
`with_hour(23).with_minute(0).with_second(0)` keeps the nanoseconds of
`now`, so they cancel in the subtraction and `num_seconds` is exact). -/
structure LocalTime where
  hour : Nat
  minute : Nat
  second : Nat
deriving DecidableEq, Repr

/-- Seconds elapsed since local midnight. -/
def secondsOfDay (t : LocalTime) : Nat :=
  t.hour * 3600 + t.minute * 60 + t.second

/-- The duration, in whole seconds, that the loop sleeps when outside the
night window: `now.with_hour(23).with_minute(0).with_second(0) - now`,
i.e. from `now` to 23:00:00 of the same local day. -/
def waitSecondsUntilNightStart (t : LocalTime) : Nat :=
  NIGHT_TIME_START * 3600 - secondsOfDay t

/-- The loop's time guard: `now.hour() < NIGHT_TIME_START && now.hour()
>= NIGHT_TIME_END` — true exactly when the current hour is outside the
night window `[23, 6)`. -/
def outsideNightWindow (t : LocalTime) : Bool :=
  decide (t.hour < NIGHT_TIME_START ∧ NIGHT_TIME_END ≤ t.hour)

/-- One cycle of the night-mode policy loop body (lines 168-221 of
main.rs), as a function of the snapshot of `sven_state`, the local time,
and the presence-probe result for this cycle. It returns the list of
publishes the cycle performs and the number of seconds it sleeps before
restarting. The four ordered guards of the source are kept verbatim:
already-in-position, outside-night-window, host-active, trigger. -/
def nightModeCycle (state : SvenState) (now : LocalTime) (hostActive : Bool) :
    List PublishReq × Nat :=
  if state.height_mm ≥ NIGHT_TIME_THRESHOLD_MM then
    ([], 60)
  else if outsideNightWindow now then
    ([], waitSecondsUntilNightStart now)
  else if hostActive then
    ([], 60)
  else
    ([set_to_night_mode], 60)

/-- One step of the MQTT eventloop task on an incoming publish (lines
232-254 of main.rs): route by topic; on the state topic decode the payload
as a `SvenState` and overwrite `sven_state` on success; on the status
topic decode the payload as UTF-8 text and overwrite `sven_status` on
success; any decode failure or unrecognized topic only logs. The two
decoders (`serde_json::from_slice` and `String::from_utf8`) are external
library calls and are passed in as functions on the raw payload bytes. -/
def handlePublish (decodeState : List Nat → Option SvenState)
    (decodeUtf8 : List Nat → Option String)
    (app : AppState) (topic : String) (payload : List Nat) : AppState :=
  if topic = "sven/state" then
    match decodeState payload with
    | some st => { app with sven_state := st }
    | none => app
  else if topic = SVEN_STATUS_TOPIC then
    match decodeUtf8 payload with
    | some s => { app with sven_status := s }
    | none => app
  else
    app

/-- Draining a sequence of incoming publishes in arrival order. -/
def processMsgs (decodeState : List Nat → Option SvenState)
    (decodeUtf8 : List Nat → Option String)
    (app : AppState) (msgs : List (String × List Nat)) : AppState :=
  msgs.foldl (fun a m => handlePublish decodeState decodeUtf8 a m.1 m.2) app

/-- The ASCII fragment of UTF-8 text decoding, used to instantiate the
status-topic decoder on concrete scenario inputs: bytes below 128 decode
to the corresponding characters, any other byte sequence fails. -/
def asciiDecode (p : List Nat) : Option String :=
  if p.all (fun b => b < 128) then
    some (String.mk (p.map (fun b => Char.ofNat b)))
  else
    none

/-- A concrete state-topic decoder for scenario instances: a one-byte
payload decodes to that height with position `Custom`, all else fails. -/
def exampleStateDecode : List Nat → Option SvenState
  | [h] => some { height_mm := h, position := SvenPosition.Custom }
  | _ => none

/-- The byte sequence of the ASCII text `"online"`. -/
def onlineBytes : List Nat := [111, 110, 108, 105, 110, 101]

/-- The store after the status topic has received `"online"`. -/
def appOnline : AppState :=
  handlePublish (fun _ => none) asciiDecode initialAppState SVEN_STATUS_TOPIC onlineBytes

end SvenApi

namespace SvenApi

/-- Claim C1: whenever the stored `height_mm` is at least the 845 mm
threshold, the cycle emits no command and sleeps the fixed 60 seconds
regardless of time of day or presence; and the sentinel `height_mm = 0`
never fires this guard — at height 0, 02:00 local time, probe false, the
cycle emits the `AbsoluteHeight` night-target publish. -/
theorem c1_already_in_position_guard (s : SvenState) (t : LocalTime) (p : Bool)
    (hge : s.height_mm ≥ NIGHT_TIME_THRESHOLD_MM) :
    nightModeCycle s t p = ([], 60) ∧
    nightModeCycle { height_mm := 0, position := SvenPosition.Custom }
      { hour := 2, minute := 0, second := 0 } false = ([set_to_night_mode], 60) ∧
    set_to_night_mode.payload = "\x7b\"command\":\"AbsoluteHeight\",\"value\":850\x7d" := by
  refine ⟨?_, by decide, by decide⟩
  unfold nightModeCycle
  rw [if_pos hge]

/-- Witness for C1 at height 850, time 14:00, probe true. -/
theorem c1_already_in_position_guard_witness :
    (850 ≥ NIGHT_TIME_THRESHOLD_MM) ∧
    nightModeCycle { height_mm := 850, position := SvenPosition.Custom }
      { hour := 14, minute := 0, second := 0 } true = ([], 60) :=
  ⟨by decide,
   (c1_already_in_position_guard
      { height_mm := 850, position := SvenPosition.Custom }
      { hour := 14, minute := 0, second := 0 } true (by decide)).1⟩

/-- Claim C2: for a cycle reaching the time guard (height below the
threshold), the current hour counts as outside the night window exactly
when `6 ≤ h < 23`; when outside, the cycle emits no command and sleeps
precisely the computed number of seconds from the current time to the next
window start at 23:00 local time (the sleep lands exactly on the window
boundary), then restarts. -/
theorem c2_outside_window_guard (s : SvenState) (t : LocalTime) (p : Bool)
    (hlt : s.height_mm < NIGHT_TIME_THRESHOLD_MM)
    (h6 : 6 ≤ t.hour) (h23 : t.hour < 23)
    (hmin : t.minute < 60) (hsec : t.second < 60) :
    nightModeCycle s t p = ([], waitSecondsUntilNightStart t) ∧
    secondsOfDay t + waitSecondsUntilNightStart t = NIGHT_TIME_START * 3600 ∧
    (∀ u : LocalTime, outsideNightWindow u = true ↔ 6 ≤ u.hour ∧ u.hour < 23) := by
  refine ⟨?_, ?_, ?_⟩
  · unfold nightModeCycle
    rw [if_neg (by omega), if_pos (by simp [outsideNightWindow, NIGHT_TIME_START, NIGHT_TIME_END]; omega)]
  · unfold waitSecondsUntilNightStart secondsOfDay NIGHT_TIME_START
    omega
  · intro u
    simp [outsideNightWindow, NIGHT_TIME_START, NIGHT_TIME_END]
    omega

/-- Witness for C2 at height 500, time 14:00: the loop sleeps 32400
seconds, exactly until 23:00. -/
theorem c2_outside_window_guard_witness :
    nightModeCycle { height_mm := 500, position := SvenPosition.Custom }
      { hour := 14, minute := 0, second := 0 } true = ([], 32400) :=
  ((c2_outside_window_guard { height_mm := 500, position := SvenPosition.Custom }
      { hour := 14, minute := 0, second := 0 } true
      (by decide) (by decide) (by decide) (by decide) (by decide)).1).trans (by decide)

/-- Claim C3: when all three guards pass — height below 845, hour inside
`[23, 6)`, probe false — the cycle performs exactly one publish: the
`AbsoluteHeight` command with value 850 serialized as JSON onto the
outbound command topic at QoS `AtLeastOnce`, retain false (fire-and-forget:
the publish outcome is not part of the cycle's state), then sleeps the
fixed 60 seconds. -/
theorem c3_night_mode_trigger (s : SvenState) (t : LocalTime) (p : Bool)
    (h1 : s.height_mm < NIGHT_TIME_THRESHOLD_MM)
    (h2 : 23 ≤ t.hour ∨ t.hour < 6) (h3 : p = false) :
    nightModeCycle s t p = ([set_to_night_mode], 60) ∧
    set_to_night_mode =
      { topic := SVEN_COMMAND_TOPIC
        qos := QoS.AtLeastOnce
        retain := false
        payload := "\x7b\"command\":\"AbsoluteHeight\",\"value\":850\x7d" } := by
  refine ⟨?_, by decide⟩
  unfold nightModeCycle
  rw [if_neg (by omega),
    if_neg (by simp [outsideNightWindow, NIGHT_TIME_START, NIGHT_TIME_END]; omega), h3]
  simp

/-- Witness for C3 at height 0, time 02:00, probe false. -/
theorem c3_night_mode_trigger_witness :
    nightModeCycle { height_mm := 0, position := SvenPosition.Custom }
      { hour := 2, minute := 0, second := 0 } false = ([set_to_night_mode], 60) :=
  (c3_night_mode_trigger { height_mm := 0, position := SvenPosition.Custom }
    { hour := 2, minute := 0, second := 0 } false
    (by decide) (Or.inr (by decide)) rfl).1

/-- Claim C4: when the height is below the threshold and the hour is
inside the night window but the presence probe reports the host active,
the cycle emits no command and sleeps the fixed 60 seconds. -/
theorem c4_presence_guard (s : SvenState) (t : LocalTime)
    (h1 : s.height_mm < NIGHT_TIME_THRESHOLD_MM)
    (h2 : 23 ≤ t.hour ∨ t.hour < 6) :
    nightModeCycle s t true = ([], 60) := by
  unfold nightModeCycle
  rw [if_neg (by omega),
    if_neg (by simp [outsideNightWindow, NIGHT_TIME_START, NIGHT_TIME_END]; omega)]
  simp

/-- Witness for C4 at height 500, time 23:30, probe true. -/
theorem c4_presence_guard_witness :
    nightModeCycle { height_mm := 500, position := SvenPosition.Custom }
      { hour := 23, minute := 30, second := 0 } true = ([], 60) :=
  c4_presence_guard { height_mm := 500, position := SvenPosition.Custom }
    { hour := 23, minute := 30, second := 0 } (by decide) (Or.inl (by decide))

/-- Claim C5: a malformed inbound message — a state-topic payload whose
decode fails, or a status-topic payload whose decode fails — leaves the
whole store exactly equal to its prior value. -/
theorem c5_malformed_retains_prior (decodeState : List Nat → Option SvenState)
    (decodeUtf8 : List Nat → Option String)
    (app : AppState) (topic : String) (payload : List Nat)
    (hstate : topic = "sven/state" → decodeState payload = none)
    (hstatus : topic = SVEN_STATUS_TOPIC → decodeUtf8 payload = none) :
    handlePublish decodeState decodeUtf8 app topic payload = app := by
  unfold handlePublish
  by_cases h1 : topic = "sven/state"
  · rw [if_pos h1, hstate h1]
  · rw [if_neg h1]
    by_cases h2 : topic = SVEN_STATUS_TOPIC
    · rw [if_pos h2, hstatus h2]
    · rw [if_neg h2]

/-- Witness for C5: after the status topic receives `"online"` and then
the garbage byte sequence `[255, 254]`, the stored status still reads
`"online"`. -/
theorem c5_malformed_retains_prior_witness :
    appOnline.sven_status = "online" ∧
    handlePublish (fun _ => none) asciiDecode appOnline SVEN_STATUS_TOPIC [255, 254]
      = appOnline :=
  ⟨by decide,
   c5_malformed_retains_prior (fun _ => none) asciiDecode appOnline
     SVEN_STATUS_TOPIC [255, 254] (fun _ => rfl) (fun _ => by decide)⟩

/-- Claim C6: over any sequence of valid state-topic messages, the stored
`SvenState` afterwards equals the state decoded from the most recently
processed message — last-write-wins, whole-value replacement in arrival
order. -/
theorem c6_last_write_wins (decodeState : List Nat → Option SvenState)
    (decodeUtf8 : List Nat → Option String)
    (app : AppState) (msgs : List (String × List Nat))
    (m : String × List Nat) (st : SvenState)
    (hvalid : ∀ x ∈ msgs, x.1 = "sven/state" ∧ (decodeState x.2).isSome = true)
    (hlast : m.1 = "sven/state") (hdec : decodeState m.2 = some st) :
    (processMsgs decodeState decodeUtf8 app (msgs ++ [m])).sven_state = st := by
  unfold processMsgs
  rw [List.foldl_append]
  simp only [List.foldl_cons, List.foldl_nil]
  unfold handlePublish
  rw [if_pos hlast, hdec]

/-- Witness for C6: two valid state messages (heights 500 then 510) leave
the store at height 510. -/
theorem c6_last_write_wins_witness :
    (processMsgs exampleStateDecode asciiDecode initialAppState
        ([("sven/state", [500])] ++ [("sven/state", [510])])).sven_state
      = { height_mm := 510, position := SvenPosition.Custom } :=
  c6_last_write_wins exampleStateDecode asciiDecode initialAppState
    [("sven/state", [500])] ("sven/state", [510])
    { height_mm := 510, position := SvenPosition.Custom }
    (by intro x hx; rw [List.mem_singleton] at hx; subst hx; exact ⟨rfl, rfl⟩)
    rfl rfl

/-- Claim C7: the presence probe returns false whenever the probe fails in
any way (the ping process cannot be spawned, or the single echo request's
exit status is not success) and true only when the one echo request —
`ping -c 1` to the fixed endpoint — succeeds. -/
theorem c7_probe_failsafe (r : PingOutcome) :
    (host_is_active r = true ↔ r = PingOutcome.output true) ∧
    pingInvocation = ("ping", ["-c", "1", "192.168.1.132"]) := by
  refine ⟨?_, by decide⟩
  cases r with
  | spawnErr e => simp [host_is_active]
  | output s => cases s <;> simp [host_is_active]

/-- Witness for C7: a successful echo reply yields true; a spawn error
yields false. -/
theorem c7_probe_failsafe_witness :
    host_is_active (PingOutcome.output true) = true :=
  (c7_probe_failsafe (PingOutcome.output true)).1.mpr rfl

/-- Claim C8: one inbound message changes at most the field matching its
topic: a state-topic message never changes `sven_status`, a status-topic
message never changes `sven_state`, and a message on any other topic
changes neither. -/
theorem c8_frame_effect (decodeState : List Nat → Option SvenState)
    (decodeUtf8 : List Nat → Option String)
    (app : AppState) (topic : String) (payload : List Nat) :
    (topic = "sven/state" →
      (handlePublish decodeState decodeUtf8 app topic payload).sven_status
        = app.sven_status) ∧
    (topic = SVEN_STATUS_TOPIC →
      (handlePublish decodeState decodeUtf8 app topic payload).sven_state
        = app.sven_state) ∧
    (topic ≠ "sven/state" → topic ≠ SVEN_STATUS_TOPIC →
      handlePublish decodeState decodeUtf8 app topic payload = app) := by
  refine ⟨?_, ?_, ?_⟩
  · intro h1
    unfold handlePublish
    rw [if_pos h1]
    cases decodeState payload <;> rfl
  · intro h2
    have h1 : topic ≠ "sven/state" := by
      rw [h2]; decide
    unfold handlePublish
    rw [if_neg h1, if_pos h2]
    cases decodeUtf8 payload <;> rfl
  · intro h1 h2
    unfold handlePublish
    rw [if_neg h1, if_neg h2]

/-- Witness for C8: a state-topic message carrying height 700 leaves the
stored status untouched. -/
theorem c8_frame_effect_witness :
    (handlePublish exampleStateDecode asciiDecode initialAppState
        "sven/state" [700]).sven_status = initialAppState.sven_status :=
  (c8_frame_effect exampleStateDecode asciiDecode initialAppState
    "sven/state" [700]).1 rfl

/-- Claim C9: the store's baseline at process start reads
`height_mm = 0`, position `Custom`, status `"offline"`. -/
theorem c9_initial_baseline :
    initialAppState.sven_state.height_mm = 0 ∧
    initialAppState.sven_state.position = SvenPosition.Custom ∧
    initialAppState.sven_status = "offline" :=
  ⟨rfl, rfl, rfl⟩

/-- Claim C10: for every well-formed `DeskCommand` and every outcome of
the outbound publish (including failure), `handle_command` responds with
status 200 and the fixed success body — the publish result is discarded,
and the response does not depend on it. -/
theorem c10_unconditional_success (cmd : DeskCommand) (r : PublishResult) :
    (handle_command cmd r).2 =
      { status := 200, body := "\x7b\"status\":\"Command sent successfully\"\x7d" } ∧
    (handle_command cmd r).2 = (handle_command cmd (PublishResult.err "publish failed")).2 ∧
    (handle_command cmd r).1.topic = SVEN_COMMAND_TOPIC :=
  ⟨rfl, rfl, rfl⟩

end SvenApi
